import Mathlib

/-!
Verification of the `runnable!` test-execution wrapper of `src/util.rs`.

The macro expands `runnable!(name, exp)` into a test function

  #[test] fn name() {
      let test_name = stringify!(name);
      println!("{} [start]", test_name);
      let start_time = std::time::Instant::now();
      exp
      let end_time = std::time::Instant::now();
      println!("{} [end]: took {} ms...", test_name,
               end_time.duration_since(start_time).as_millis());
  }

We embed the observable machine state as a `World`: the lines written so far
to standard output, and a monotonic clock in nanoseconds (the resolution of
`std::time::Instant`).  The wrapped expression `exp` is arbitrary code; it is
embedded as a function from `World` to an `Outcome`: either normal completion
(carrying the unit value the expression statement produces and the final
world) or a panic that unwinds past the wrapper (carrying the world at the
moment of unwinding).
-/

/-- The observable state: the monotonic clock (`std::time::Instant`, in
nanoseconds) and the lines printed to standard output so far. -/
structure World where
  now : Nat
  out : List String
deriving Repr, DecidableEq

/-- One `println!` call: appends one line to standard output. -/
def println (s : String) (w : World) : World :=
  { w with out := w.out ++ [s] }

/-- One `std::time::Instant::now()` call: reads the monotonic clock. -/
def instantNow (w : World) : Nat :=
  w.now

/-- `end_time.duration_since(start_time).as_millis()`: the nanosecond
difference, saturating at zero when `start_time` is later (`duration_since`
returns a zero duration in that case), truncated to whole milliseconds. -/
def durationSinceMillis (end_time start_time : Nat) : Nat :=
  (end_time - start_time) / 1000000

/-- The result of running a block of code: normal completion with a value and
the resulting world, or a panic that unwinds, leaving the world as it was at
the moment of the abort. -/
inductive Outcome (α : Type) where
  | ok : α → World → Outcome α
  | panic : World → Outcome α
deriving Repr, DecidableEq

/-- The world an outcome leaves behind, in both the normal and the panicking
case. -/
def Outcome.world {α : Type} : Outcome α → World
  | .ok _ w => w
  | .panic w => w

/-- A wrapped block of logic (the `exp` argument of `runnable!`): arbitrary
code, observed through its effect on the world.  In the macro expansion the
block is spliced as an expression statement, so its value type is `Unit`. -/
def Logic (α : Type) : Type :=
  World → Outcome α

/-- The first line printed by the generated test: `"{} [start]"` formatted
with the stringified test name. -/
def startLine (test_name : String) : String :=
  test_name ++ " [start]"

/-- The second line printed by the generated test: `"{} [end]: took {} ms..."`
formatted with the test name and the whole-millisecond duration. -/
def endLine (test_name : String) (ms : Nat) : String :=
  test_name ++ " [end]: took " ++ toString ms ++ " ms..."

/-- The body of the `#[test] fn` generated by `runnable!`, line by line:
print the start marker, read the clock, run the wrapped logic (a panic there
unwinds past everything that follows), read the clock again, and print the
end marker carrying the elapsed whole milliseconds.  The generated function
returns unit. -/
def runnable (test_name : String) (logic : Logic Unit) (w : World) : Outcome Unit :=
  let w := println (startLine test_name) w
  let start_time := instantNow w
  match logic w with
  | .panic w₁ => .panic w₁
  | .ok _ w₁ =>
    let end_time := instantNow w₁
    let w₂ := println (endLine test_name (durationSinceMillis end_time start_time)) w₁
    .ok () w₂

/-- The individual steps the generated test body performs, used to observe
their order and multiplicity. -/
inductive Event where
  | emitStartMarker
  | recordStart
  | execLogic
  | recordEnd
  | computeElapsed
  | emitEndMarker
deriving Repr, DecidableEq

/-- `runnable` decorated with the trace of the steps it performs, in the order
it performs them.  The outcome component coincides with `runnable` itself (see
the claim on step order), so the trace is a faithful record of the single code
path of the macro body: on a panic inside the logic the unwinding skips the
clock read, the elapsed-time computation and the end marker. -/
def runnableEvents (test_name : String) (logic : Logic Unit) (w : World) :
    Outcome Unit × List Event :=
  let w := println (startLine test_name) w
  let start_time := instantNow w
  match logic w with
  | .panic w₁ =>
    (.panic w₁, [.emitStartMarker, .recordStart, .execLogic])
  | .ok _ w₁ =>
    let end_time := instantNow w₁
    let w₂ := println (endLine test_name (durationSinceMillis end_time start_time)) w₁
    (.ok () w₂,
     [.emitStartMarker, .recordStart, .execLogic, .recordEnd, .computeElapsed, .emitEndMarker])

/-- Modelled from the spec: the registration side of the wrapper.  In the
source, registration is the `#[test]` attribute on the generated function and
the registry lives inside the external `cargo test` discovery harness, not in
code under `src/`.  Spec section 9 describes it as a mapping from name to
callable populated at registration time, and requires a duplicate name in one
scope to be rejected rather than silently overwritten (the source realises the
rejection as the host language's duplicate-definition compile error). -/
abbrev Registry : Type :=
  List (String × Logic Unit)

/-- Modelled from the spec: registering a named test case.  A duplicate name
is rejected; a fresh name is appended to the registry.  Registration touches
nothing but the registry: the world is returned unchanged and the logic is
not invoked. -/
def register (test_name : String) (logic : Logic Unit) (reg : Registry) (w : World) :
    Except String Registry × World :=
  if reg.any (fun p => p.1 == test_name) then
    (.error ("duplicate test name: " ++ test_name), w)
  else
    (.ok (reg ++ [(test_name, logic)]), w)

/-- C1: for every registered name and every wrapped logic that completes
normally (printing some list `ls` of lines of its own), one invocation of the
wrapper emits exactly two lines of its own, in order: the line
`<name> [start]` first, before everything the logic prints, and the line
`<name> [end]: took <ms> ms...` last, with the same name in both lines and
`ms` a natural number (hence a non-negative integer). -/
theorem runnable_emits_two_marker_lines
    (test_name : String) (logic : Logic Unit) (w w₁ : World) (ls : List String)
    (h : logic (println (startLine test_name) w) = .ok () w₁)
    (hout : w₁.out = (println (startLine test_name) w).out ++ ls) :
    ∃ ms w₂, runnable test_name logic w = .ok () w₂ ∧
      w₂.out = w.out ++ [startLine test_name] ++ ls ++ [endLine test_name ms] := by
  refine ⟨durationSinceMillis (instantNow w₁) (instantNow (println (startLine test_name) w)),
    println (endLine test_name
      (durationSinceMillis (instantNow w₁) (instantNow (println (startLine test_name) w))))
      w₁, ?_, ?_⟩
  · simp [runnable, h]
  · simp [println, hout]

/-- Witness for C1 at a concrete input: the trivial logic on an empty console
with the clock at zero. -/
theorem runnable_emits_two_marker_lines_witness :
    ∃ ms w₂,
      runnable "t" (fun v => .ok () v) { now := 0, out := [] } = .ok () w₂ ∧
        w₂.out = ({ now := 0, out := [] } : World).out ++ [startLine "t"] ++ []
          ++ [endLine "t" ms] :=
  runnable_emits_two_marker_lines "t" (fun v => .ok () v)
    { now := 0, out := [] } (println (startLine "t") { now := 0, out := [] }) []
    rfl (by simp)

/-- C2: for every wrapped logic that panics, the invocation emits the start
line (the logic runs on the world that already carries it) but the wrapper
emits no further line: the invocation's outcome is exactly the logic's panic,
world included, so the abnormal termination propagates unchanged past the
wrapper — it is neither suppressed nor converted, and no end line is
appended after the logic aborts. -/
theorem runnable_panic_propagates
    (test_name : String) (logic : Logic Unit) (w w₁ : World) (ls : List String)
    (h : logic (println (startLine test_name) w) = .panic w₁)
    (hout : w₁.out = (println (startLine test_name) w).out ++ ls) :
    runnable test_name logic w = .panic w₁ ∧
      w₁.out = w.out ++ [startLine test_name] ++ ls := by
  constructor
  · simp [runnable, h]
  · simp [println, hout]

/-- Witness for C2 at a concrete input: a logic that panics immediately. -/
theorem runnable_panic_propagates_witness :
    runnable "t" (fun v => .panic v) { now := 0, out := [] }
        = .panic (println (startLine "t") { now := 0, out := [] }) ∧
      (println (startLine "t") ({ now := 0, out := [] } : World)).out
        = ({ now := 0, out := [] } : World).out ++ [startLine "t"] ++ [] :=
  runnable_panic_propagates "t" (fun v => .panic v) { now := 0, out := [] }
    (println (startLine "t") { now := 0, out := [] }) [] rfl (by simp)

/-- C3: the event-decorated body performs the same computation as `runnable`
(first conjunct), and on a normally completing invocation its steps are, in
this exact order: emit the start marker, record the start timestamp, execute
the wrapped logic, record the end timestamp, compute the elapsed time, emit
the end marker — with the logic executed exactly once (the trace contains
exactly one `execLogic` step). -/
theorem runnable_step_order
    (test_name : String) (logic : Logic Unit) (w w₁ : World)
    (h : logic (println (startLine test_name) w) = .ok () w₁) :
    (runnableEvents test_name logic w).1 = runnable test_name logic w ∧
      (runnableEvents test_name logic w).2 =
        [Event.emitStartMarker, Event.recordStart, Event.execLogic,
         Event.recordEnd, Event.computeElapsed, Event.emitEndMarker] ∧
      (runnableEvents test_name logic w).2.count Event.execLogic = 1 := by
  refine ⟨?_, ?_, ?_⟩ <;> simp [runnableEvents, runnable, h, List.count]

/-- Witness for C3 at a concrete input. -/
theorem runnable_step_order_witness :
    (runnableEvents "t" (fun v => .ok () v) { now := 0, out := [] }).1
        = runnable "t" (fun v => .ok () v) { now := 0, out := [] } ∧
      (runnableEvents "t" (fun v => .ok () v) { now := 0, out := [] }).2 =
        [Event.emitStartMarker, Event.recordStart, Event.execLogic,
         Event.recordEnd, Event.computeElapsed, Event.emitEndMarker] ∧
      (runnableEvents "t" (fun v => .ok () v) { now := 0, out := [] }).2.count
          Event.execLogic = 1 :=
  runnable_step_order "t" (fun v => .ok () v) { now := 0, out := [] }
    (println (startLine "t") { now := 0, out := [] }) rfl

/-- C4: on a normally completing invocation the end marker reports exactly
`(end timestamp - start timestamp) / 1000000` whole milliseconds — the `Nat`
subtraction saturates at zero, matching `Instant::duration_since`, so the
figure is a non-negative integer and truncation is toward zero.  The start
timestamp is the clock of the world after the start marker was printed and
the end timestamp is the clock of the world the logic returned, before the
end marker is printed, so the measured interval brackets only the logic: in
the step trace, `recordStart` comes after `emitStartMarker`, `recordEnd`
comes before `emitEndMarker`, and the only step between the two clock reads
is `execLogic`. -/
theorem runnable_elapsed_formula
    (test_name : String) (logic : Logic Unit) (w w₁ : World)
    (h : logic (println (startLine test_name) w) = .ok () w₁) :
    (∃ w₂, runnable test_name logic w = .ok () w₂ ∧
        w₂.out = w₁.out
          ++ [endLine test_name
                ((instantNow w₁ - instantNow (println (startLine test_name) w)) / 1000000)]) ∧
      (runnableEvents test_name logic w).2 =
        [Event.emitStartMarker, Event.recordStart, Event.execLogic,
         Event.recordEnd, Event.computeElapsed, Event.emitEndMarker] := by
  constructor
  · refine ⟨println (endLine test_name
        ((instantNow w₁ - instantNow (println (startLine test_name) w)) / 1000000)) w₁,
      ?_, ?_⟩
    · simp [runnable, h, durationSinceMillis]
    · simp [println]
  · simp [runnableEvents, h]

/-- Witness for C4 at a concrete input: a logic that takes 5000000 ns
(5 ms), so the reported figure is 5. -/
theorem runnable_elapsed_formula_witness :
    (∃ w₂,
        runnable "t" (fun v => .ok () { v with now := v.now + 5000000 })
            { now := 0, out := [] } = .ok () w₂ ∧
        w₂.out = ({ now := 5000000, out := [startLine "t"] } : World).out
          ++ [endLine "t"
                ((instantNow ({ now := 5000000, out := [startLine "t"] } : World)
                    - instantNow (println (startLine "t") { now := 0, out := [] }))
                  / 1000000)]) ∧
      (runnableEvents "t" (fun v => .ok () { v with now := v.now + 5000000 })
          { now := 0, out := [] }).2 =
        [Event.emitStartMarker, Event.recordStart, Event.execLogic,
         Event.recordEnd, Event.computeElapsed, Event.emitEndMarker] :=
  runnable_elapsed_formula "t" (fun v => .ok () { v with now := v.now + 5000000 })
    { now := 0, out := [] } { now := 5000000, out := [startLine "t"] }
    (by simp [println, startLine])

/-- C5: the wrapper surfaces the value of a normally completing logic
unaltered.  The generated test function has result type unit, so the value
the spliced expression statement produces is the no-value `()`; the wrapper
neither inspects nor alters it: whatever value `u` the logic completed with
is exactly the value the invocation completes with. -/
theorem runnable_value_roundtrip
    (test_name : String) (logic : Logic Unit) (w w₁ : World) (u : Unit)
    (h : logic (println (startLine test_name) w) = .ok u w₁) :
    ∃ w₂, runnable test_name logic w = .ok u w₂ := by
  cases u
  refine ⟨println (endLine test_name
      (durationSinceMillis (instantNow w₁) (instantNow (println (startLine test_name) w)))) w₁,
    ?_⟩
  simp [runnable, h]

/-- Witness for C5 at a concrete input. -/
theorem runnable_value_roundtrip_witness :
    ∃ w₂, runnable "t" (fun v => .ok () v) { now := 0, out := [] } = .ok () w₂ :=
  runnable_value_roundtrip "t" (fun v => .ok () v) { now := 0, out := [] }
    (println (startLine "t") { now := 0, out := [] }) () rfl

/-- C6: registration alone has no observable side effect beyond the registry.
The world — console output and clock — comes back unchanged, so no line is
emitted and no timestamp is taken, and the resulting world does not depend in
any way on the behaviour of the registered logic: the logic is not executed
until the discovery mechanism later invokes the test. -/
theorem register_no_side_effects
    (test_name : String) (logic logic' : Logic Unit) (reg : Registry) (w : World) :
    (register test_name logic reg w).2 = w ∧
      (register test_name logic reg w).2 = (register test_name logic' reg w).2 := by
  constructor <;> simp [register] <;> split <;> rfl

/-- C7: registering a second test case under a name already present in the
registry is rejected deterministically — the operation returns an error, the
registry entry under that name is not replaced, and the world is untouched;
it never succeeds as a silent overwrite. -/
theorem register_rejects_duplicate
    (test_name : String) (logic logic₀ : Logic Unit) (reg : Registry) (w : World)
    (h : (test_name, logic₀) ∈ reg) :
    (register test_name logic reg w).1
        = .error ("duplicate test name: " ++ test_name) ∧
      (register test_name logic reg w).2 = w := by
  have hany : reg.any (fun p => p.1 == test_name) = true :=
    List.any_eq_true.mpr ⟨(test_name, logic₀), h, by simp⟩
  constructor <;> simp [register, hany]

/-- Witness for C7 at a concrete input: a one-entry registry already holding
the name being registered again. -/
theorem register_rejects_duplicate_witness :
    (register "t" (fun v => .panic v) [("t", fun v => .ok () v)]
          { now := 0, out := [] }).1
        = .error ("duplicate test name: " ++ "t") ∧
      (register "t" (fun v => .panic v) [("t", fun v => .ok () v)]
          { now := 0, out := [] }).2 = { now := 0, out := [] } :=
  register_rejects_duplicate "t" (fun v => .panic v) (fun v => .ok () v)
    [("t", fun v => .ok () v)] { now := 0, out := [] } (List.mem_singleton.mpr rfl)

/-- C9: the wrapper introduces no failure path of its own.  The marker
printing, clock reads and elapsed-time computation are total, so whenever the
wrapped logic completes normally the whole invocation completes normally
(never a panic) and the end marker is the last line on the console. -/
theorem runnable_no_wrapper_failure
    (test_name : String) (logic : Logic Unit) (w w₁ : World)
    (h : logic (println (startLine test_name) w) = .ok () w₁) :
    ∃ ms w₂, runnable test_name logic w = .ok () w₂ ∧
      w₂.out.getLast? = some (endLine test_name ms) := by
  refine ⟨durationSinceMillis (instantNow w₁) (instantNow (println (startLine test_name) w)),
    println (endLine test_name
      (durationSinceMillis (instantNow w₁) (instantNow (println (startLine test_name) w))))
      w₁, ?_, ?_⟩
  · simp [runnable, h]
  · simp [println]

/-- Witness for C9 at a concrete input. -/
theorem runnable_no_wrapper_failure_witness :
    ∃ ms w₂, runnable "t" (fun v => .ok () v) { now := 0, out := [] } = .ok () w₂ ∧
      w₂.out.getLast? = some (endLine "t" ms) :=
  runnable_no_wrapper_failure "t" (fun v => .ok () v) { now := 0, out := [] }
    (println (startLine "t") { now := 0, out := [] }) rfl

/-- C10: millisecond truncation is toward zero, so zero is a reportable
figure: whenever the wrapped logic completes normally after strictly less
than one millisecond (1000000 ns) on the monotonic clock, the end marker
reports `took 0 ms...` (the end line is `endLine test_name 0`, and
`toString 0 = "0"`). -/
theorem runnable_sub_millisecond_reports_zero
    (test_name : String) (logic : Logic Unit) (w w₁ : World)
    (h : logic (println (startLine test_name) w) = .ok () w₁)
    (hfast : w₁.now - w.now < 1000000) :
    ∃ w₂, runnable test_name logic w = .ok () w₂ ∧
      w₂.out.getLast? = some (endLine test_name 0) := by
  refine ⟨println (endLine test_name 0) w₁, ?_, ?_⟩
  · have hms : durationSinceMillis (instantNow w₁)
        (instantNow (println (startLine test_name) w)) = 0 := by
      simp [durationSinceMillis, instantNow, println]
      exact Nat.div_eq_of_lt hfast
    simp [runnable, h, hms]
  · simp [println]

/-- Witness for C10 at a concrete input: a logic that takes 999999 ns, just
under one millisecond, so the reported figure is 0. -/
theorem runnable_sub_millisecond_reports_zero_witness :
    ∃ w₂,
      runnable "t" (fun v => .ok () { v with now := v.now + 999999 })
          { now := 0, out := [] } = .ok () w₂ ∧
        w₂.out.getLast? = some (endLine "t" 0) :=
  runnable_sub_millisecond_reports_zero "t"
    (fun v => .ok () { v with now := v.now + 999999 })
    { now := 0, out := [] } { now := 999999, out := [startLine "t"] }
    (by simp [println, startLine]) (by decide)
